import Mathlib

/-!
Verification development for the Airtable adapter (universal_mcp_airtable).

The adapter (app.py) exposes eleven operations that resolve a pyairtable
client handle from an injected integration and delegate to the client
library, converting every caught exception into a descriptive string.
The definitions below are a shallow embedding of that code: external
delegate calls (pyairtable, network) are parameters of type
`Except Exc _`, Python dictionaries are association lists, and each
operation mirrors the try/except structure of its source method.
-/

/-- A Python exception as the adapter observes it: its type name and its
message (str(e)). -/
structure Exc where
  kind : String
  msg : String
deriving DecidableEq

/-- Result of a Python method in this embedding: a normal structured
return, a returned error string, or an exception propagating out. -/
inductive PyRet (α : Type) where
  | ok : α → PyRet α
  | errStr : String → PyRet α
  | raised : Exc → PyRet α
deriving DecidableEq

/-- First-binding lookup in an association list, the dictionary model. -/
def dictLookup (o : List (String × α)) (k : String) : Option α :=
  match o with
  | [] => none
  | (k1, v) :: rest => if k1 = k then some v else dictLookup rest k

/-- Replace the first binding of a key, appending when absent: the model
of Python dictionary item assignment. -/
def dictSet (o : List (String × α)) (k : String) (v : α) : List (String × α) :=
  match o with
  | [] => [(k, v)]
  | (k1, v1) :: rest => if k1 = k then (k, v) :: rest else (k1, v1) :: dictSet rest k v

/-- Credentials returned by integration.get_credentials(): a mapping whose
values may be None (modelled as the inner Option). -/
abbrev Credentials := List (String × Option String)

/-- The injected universal_mcp integration, reduced to what the adapter
reads from it: the credentials mapping. -/
structure Integration where
  credentials : Credentials

/-- The AirtableApp state: the optional integration stored at
construction time. -/
structure AirtableApp where
  integration : Option Integration

/-- The pyairtable Api handle: it stores whatever key it was given,
without validating it. -/
structure Api where
  api_key : Option String
deriving DecidableEq

/-- A pyairtable base handle, as built by client.base(base_id). -/
structure BaseHandle where
  api : Api
  base_id : String
deriving DecidableEq

/-- A pyairtable table handle, as built by client.table(base_id, name). -/
structure TableHandle where
  api : Api
  base_id : String
  table_name : String
deriving DecidableEq

/-- Python truthiness of an optional string: None and the empty string
are falsy. -/
def pyTruthy (a : Option String) : Bool :=
  match a with
  | none => false
  | some v => !(v == "")

/-- The Python `or` operator on optional strings: the left operand when
truthy, otherwise the right operand. -/
def pyOr (a b : Option String) : Option String :=
  if pyTruthy a then a else b

/-- dict.get on the credentials mapping: absent keys and keys bound to
None both give None. -/
def dictGet (creds : Credentials) (k : String) : Option String :=
  match dictLookup creds k with
  | some v => v
  | none => none

/-- The exception raised by _get_client when no integration is set. -/
def integrationNotSetExc : Exc :=
  { kind := "ValueError", msg := "Integration is not set for AirtableApp." }

/-- The key selection of _get_client:
credentials.get("api_key") or credentials.get("apiKey") or
credentials.get("API_KEY"). -/
def apiKeyOf (creds : Credentials) : Option String :=
  pyOr (dictGet creds "api_key") (pyOr (dictGet creds "apiKey") (dictGet creds "API_KEY"))

/-- Embedding of AirtableApp._get_client: raises ValueError when the
integration is missing, otherwise builds an Api handle from the first
truthy credential among the accepted key spellings. -/
def AirtableApp._get_client (app : AirtableApp) : Except Exc Api :=
  match app.integration with
  | none => .error integrationNotSetExc
  | some integ =>
    let credentials := integ.credentials
    let api_key := pyOr (dictGet credentials "api_key")
      (pyOr (dictGet credentials "apiKey") (dictGet credentials "API_KEY"))
    .ok { api_key := api_key }

/-- The try/except Exception wrapper shared by every operation: a normal
result is returned as is, a raised exception is rendered by the handler
into a returned string. -/
def pyTry (body : Except Exc α) (handler : Exc → String) : PyRet α :=
  match body with
  | .ok v => .ok v
  | .error e => .errStr (handler e)

/-- Minimal model of the pyairtable Formula expression type (external
library): enough structure to distinguish it from a plain string. -/
inductive Formula where
  | eqF : String → String → Formula
  | andF : Formula → Formula → Formula
  | orF : Formula → Formula → Formula
  | notF : Formula → Formula
deriving DecidableEq

/-- Model of pyairtable to_formula_str: deterministic serialization of a
Formula into the Airtable formula language. -/
def to_formula_str (f : Formula) : String :=
  match f with
  | .eqF field v => "\x7b" ++ field ++ "\x7d=\x27" ++ v ++ "\x27"
  | .andF a b => "AND(" ++ to_formula_str a ++ "," ++ to_formula_str b ++ ")"
  | .orF a b => "OR(" ++ to_formula_str a ++ "," ++ to_formula_str b ++ ")"
  | .notF a => "NOT(" ++ to_formula_str a ++ ")"

/-- A value in the options keyword bag: a plain string, a structured
Formula object, a number, or a boolean. -/
inductive OptVal where
  | str : String → OptVal
  | formula : Formula → OptVal
  | num : Int → OptVal
  | boolean : Bool → OptVal
deriving DecidableEq

/-- The **options keyword bag, as a dictionary. -/
abbrev Options := List (String × OptVal)

/-- Field values of a record write, a mapping from field name to value. -/
abbrev FieldsV := List (String × String)

/-- A record as returned by the Airtable API. -/
structure RecordDict where
  id : String
  createdTime : String
  fields : FieldsV
deriving DecidableEq

/-- A deletion confirmation returned by the Airtable API. -/
structure RecordDeletedDict where
  id : String
  deleted : Bool
deriving DecidableEq

/-- A batch update entry: the record id plus the fields to write. -/
structure UpdateRecordDict where
  id : String
  fields : FieldsV
deriving DecidableEq

/-- An upsert entry: optional id plus fields. -/
structure UpsertInput where
  id : Option String
  fields : FieldsV
deriving DecidableEq

/-- The structured result of a batch upsert. -/
structure UpsertResultDict where
  createdRecords : List String
  updatedRecords : List String
  records : List RecordDict
deriving DecidableEq

/-- A pyairtable Base descriptor, as returned by client.bases(). -/
structure BaseObj where
  id : String
deriving DecidableEq

/-- A pyairtable Table descriptor, as returned by base.tables(). -/
structure TableObj where
  base_id : String
  id : String
deriving DecidableEq

/-- The external pyairtable calls each operation delegates to, as
uninterpreted functions that may raise. Handle construction
(client.base, client.table) is pure in pyairtable and is embedded
directly in the operations. -/
structure Delegate where
  bases : Api → Except Exc (List BaseObj)
  tables : BaseHandle → Except Exc (List TableObj)
  get : TableHandle → String → Options → Except Exc RecordDict
  all : TableHandle → Options → Except Exc (List RecordDict)
  create : TableHandle → FieldsV → Options → Except Exc RecordDict
  update : TableHandle → String → FieldsV → Options → Except Exc RecordDict
  delete : TableHandle → String → Except Exc RecordDeletedDict
  batch_create : TableHandle → List FieldsV → Options → Except Exc (List RecordDict)
  batch_update : TableHandle → List UpdateRecordDict → Options → Except Exc (List RecordDict)
  batch_delete : TableHandle → List String → Except Exc (List RecordDeletedDict)
  batch_upsert : TableHandle → List UpsertInput → List String → Options → Except Exc UpsertResultDict

/-- Embedding of AirtableApp.list_bases. -/
def AirtableApp.list_bases (app : AirtableApp) (d : Delegate) : PyRet (List BaseObj) :=
  pyTry (do
      let client ← app._get_client
      d.bases client)
    (fun e => "Error listing bases: " ++ e.kind ++ " - " ++ e.msg)

/-- Embedding of AirtableApp.list_tables. -/
def AirtableApp.list_tables (app : AirtableApp) (d : Delegate) (base_id : String) :
    PyRet (List TableObj) :=
  pyTry (do
      let client ← app._get_client
      let base : BaseHandle := { api := client, base_id := base_id }
      d.tables base)
    (fun e => "Error listing tables for base \x27" ++ base_id ++ "\x27: " ++
      e.kind ++ " - " ++ e.msg)

/-- Embedding of AirtableApp.get_record. -/
def AirtableApp.get_record (app : AirtableApp) (d : Delegate)
    (base_id table_id_or_name record_id : String) (options : Options) :
    PyRet RecordDict :=
  pyTry (do
      let client ← app._get_client
      let table : TableHandle :=
        { api := client, base_id := base_id, table_name := table_id_or_name }
      d.get table record_id options)
    (fun e => "Error getting record \x27" ++ record_id ++ "\x27 from \x27" ++
      table_id_or_name ++ "\x27 in \x27" ++ base_id ++ "\x27: " ++
      e.kind ++ " - " ++ e.msg)

/-- The formula conversion inside list_records: when the options bag has
a formula entry holding a structured Formula object, it is replaced with
its serialized string; otherwise the bag is untouched. -/
def convertFormulaOptions (options : Options) : Options :=
  match dictLookup options "formula" with
  | some (.formula f) => dictSet options "formula" (.str (to_formula_str f))
  | _ => options

/-- Embedding of AirtableApp.list_records, with the Formula-to-string
conversion before delegation. -/
def AirtableApp.list_records (app : AirtableApp) (d : Delegate)
    (base_id table_id_or_name : String) (options : Options) :
    PyRet (List RecordDict) :=
  pyTry (do
      let client ← app._get_client
      let table : TableHandle :=
        { api := client, base_id := base_id, table_name := table_id_or_name }
      let options := convertFormulaOptions options
      d.all table options)
    (fun e => "Error listing records from \x27" ++ table_id_or_name ++
      "\x27 in \x27" ++ base_id ++ "\x27: " ++ e.kind ++ " - " ++ e.msg)

/-- Embedding of AirtableApp.create_record. -/
def AirtableApp.create_record (app : AirtableApp) (d : Delegate)
    (base_id table_id_or_name : String) (fields : FieldsV) (options : Options) :
    PyRet RecordDict :=
  pyTry (do
      let client ← app._get_client
      let table : TableHandle :=
        { api := client, base_id := base_id, table_name := table_id_or_name }
      d.create table fields options)
    (fun e => "Error creating record in \x27" ++ table_id_or_name ++
      "\x27 in \x27" ++ base_id ++ "\x27: " ++ e.kind ++ " - " ++ e.msg)

/-- Embedding of AirtableApp.update_record. -/
def AirtableApp.update_record (app : AirtableApp) (d : Delegate)
    (base_id table_id_or_name record_id : String) (fields : FieldsV)
    (options : Options) : PyRet RecordDict :=
  pyTry (do
      let client ← app._get_client
      let table : TableHandle :=
        { api := client, base_id := base_id, table_name := table_id_or_name }
      d.update table record_id fields options)
    (fun e => "Error updating record \x27" ++ record_id ++ "\x27 in \x27" ++
      table_id_or_name ++ "\x27 in \x27" ++ base_id ++ "\x27: " ++
      e.kind ++ " - " ++ e.msg)

/-- Embedding of AirtableApp.delete_record. -/
def AirtableApp.delete_record (app : AirtableApp) (d : Delegate)
    (base_id table_id_or_name record_id : String) : PyRet RecordDeletedDict :=
  pyTry (do
      let client ← app._get_client
      let table : TableHandle :=
        { api := client, base_id := base_id, table_name := table_id_or_name }
      d.delete table record_id)
    (fun e => "Error deleting record \x27" ++ record_id ++ "\x27 from \x27" ++
      table_id_or_name ++ "\x27 in \x27" ++ base_id ++ "\x27: " ++
      e.kind ++ " - " ++ e.msg)

/-- Embedding of AirtableApp.batch_create_records. -/
def AirtableApp.batch_create_records (app : AirtableApp) (d : Delegate)
    (base_id table_id_or_name : String) (records : List FieldsV)
    (options : Options) : PyRet (List RecordDict) :=
  pyTry (do
      let client ← app._get_client
      let table : TableHandle :=
        { api := client, base_id := base_id, table_name := table_id_or_name }
      d.batch_create table records options)
    (fun e => "Error batch creating records in \x27" ++ table_id_or_name ++
      "\x27 in \x27" ++ base_id ++ "\x27: " ++ e.kind ++ " - " ++ e.msg)

/-- Embedding of AirtableApp.batch_update_records. -/
def AirtableApp.batch_update_records (app : AirtableApp) (d : Delegate)
    (base_id table_id_or_name : String) (records : List UpdateRecordDict)
    (options : Options) : PyRet (List RecordDict) :=
  pyTry (do
      let client ← app._get_client
      let table : TableHandle :=
        { api := client, base_id := base_id, table_name := table_id_or_name }
      d.batch_update table records options)
    (fun e => "Error batch updating records in \x27" ++ table_id_or_name ++
      "\x27 in \x27" ++ base_id ++ "\x27: " ++ e.kind ++ " - " ++ e.msg)

/-- Embedding of AirtableApp.batch_delete_records. -/
def AirtableApp.batch_delete_records (app : AirtableApp) (d : Delegate)
    (base_id table_id_or_name : String) (record_ids : List String) :
    PyRet (List RecordDeletedDict) :=
  pyTry (do
      let client ← app._get_client
      let table : TableHandle :=
        { api := client, base_id := base_id, table_name := table_id_or_name }
      d.batch_delete table record_ids)
    (fun e => "Error batch deleting records from \x27" ++ table_id_or_name ++
      "\x27 in \x27" ++ base_id ++ "\x27: " ++ e.kind ++ " - " ++ e.msg)

/-- Embedding of AirtableApp.batch_upsert_records. -/
def AirtableApp.batch_upsert_records (app : AirtableApp) (d : Delegate)
    (base_id table_id_or_name : String) (records : List UpsertInput)
    (key_fields : List String) (options : Options) : PyRet UpsertResultDict :=
  pyTry (do
      let client ← app._get_client
      let table : TableHandle :=
        { api := client, base_id := base_id, table_name := table_id_or_name }
      d.batch_upsert table records key_fields options)
    (fun e => "Error batch upserting records in \x27" ++ table_id_or_name ++
      "\x27 in \x27" ++ base_id ++ "\x27: " ++ e.kind ++ " - " ++ e.msg)

/-- The eleven exposed tools, one constructor per bound method. -/
inductive Tool where
  | list_bases | list_tables | get_record | list_records | create_record
  | update_record | delete_record | batch_create_records | batch_update_records
  | batch_delete_records | batch_upsert_records
deriving DecidableEq

/-- Embedding of AirtableApp.list_tools: the static capability list. -/
def AirtableApp.list_tools (_app : AirtableApp) : List Tool :=
  [Tool.list_bases, Tool.list_tables, Tool.get_record, Tool.list_records,
   Tool.create_record, Tool.update_record, Tool.delete_record,
   Tool.batch_create_records, Tool.batch_update_records,
   Tool.batch_delete_records, Tool.batch_upsert_records]

/-!
Model of the remote upsert semantics, for the idempotence property of
batch_upsert_records. The matching and rewriting behavior lives in the
pyairtable client and the remote Airtable service, which are not part of
this repository, so it is modelled from the specification.
-/

/-- A stored row of the remote table: its identity field and its field
values. -/
structure Row where
  id : String
  fields : FieldsV
deriving DecidableEq

/-- The remote table state: its rows in order, and a counter from which
fresh record ids are drawn. -/
structure TState where
  rows : List Row
  nextId : Nat
deriving DecidableEq

/-- The projection of a field mapping onto the key fields: the values
used to match records when no id is supplied. -/
def projKeys (kf : List String) (fs : FieldsV) : List (Option String) :=
  kf.map (fun k => dictLookup fs k)

/-- Whether a stored field mapping matches an incoming one on every key
field. -/
def keysMatch (kf : List String) (fs1 fs2 : FieldsV) : Bool :=
  decide (projKeys kf fs1 = projKeys kf fs2)

/-- Rewrite the fields of the first row satisfying the predicate,
leaving every other row untouched. -/
def replaceFirst (p : Row → Bool) (newFields : FieldsV) : List Row → List Row
  | [] => []
  | r :: rest =>
    if p r then { r with fields := newFields } :: rest
    else r :: replaceFirst p newFields rest

/-- Modelled from the spec: one record of a batch upsert against the
remote table, as performed by pyairtable Table.batch_upsert and the
remote service (both outside this repository). A record is matched by
its identity field when present, otherwise by the key fields; a matched
record is rewritten, an unmatched record is created. The result carries
the created ids and the updated ids. -/
def upsertOne (kf : List String) (s : TState) (inp : UpsertInput) :
    TState × List String × List String :=
  match inp.id with
  | some rid =>
    if s.rows.any (fun r => r.id == rid) then
      ({ rows := replaceFirst (fun r => r.id == rid) inp.fields s.rows,
         nextId := s.nextId }, [], [rid])
    else
      ({ rows := s.rows ++ [{ id := rid, fields := inp.fields }],
         nextId := s.nextId }, [rid], [])
  | none =>
    match s.rows.find? (fun r => keysMatch kf r.fields inp.fields) with
    | some r =>
      ({ rows := replaceFirst (fun r => keysMatch kf r.fields inp.fields)
           inp.fields s.rows,
         nextId := s.nextId }, [], [r.id])
    | none =>
      ({ rows := s.rows ++ [{ id := "rec" ++ toString s.nextId, fields := inp.fields }],
         nextId := s.nextId + 1 }, ["rec" ++ toString s.nextId], [])

/-- Modelled from the spec: a whole batch upsert, processing the records
in order against the evolving table state, accumulating created and
updated ids. -/
def runUpserts (kf : List String) : TState → List UpsertInput → TState × List String × List String
  | s, [] => (s, [], [])
  | s, inp :: rest =>
    let r := upsertOne kf s inp
    let rr := runUpserts kf r.1 rest
    (rr.1, r.2.1 ++ rr.2.1, r.2.2 ++ rr.2.2)

/-- The rows a batch of id-free records creates in an empty table, with
ids drawn from the counter in order. -/
def freshRows (n : Nat) : List UpsertInput → List Row
  | [] => []
  | inp :: rest => { id := "rec" ++ toString n, fields := inp.fields } :: freshRows (n + 1) rest

/-- The ids of the rows freshRows creates. -/
def freshIds (n : Nat) : List UpsertInput → List String
  | [] => []
  | _ :: rest => ("rec" ++ toString n) :: freshIds (n + 1) rest

/-- The id of the first stored row matching each input by key fields,
computed against a fixed row list. -/
def matchedIds (kf : List String) (rows : List Row) : List UpsertInput → List String
  | [] => []
  | inp :: rest =>
    (match rows.find? (fun r => keysMatch kf r.fields inp.fields) with
     | some r => r.id
     | none => "") :: matchedIds kf rows rest

/-- A PyRet value that is not a propagated exception: the operation
returned normally (structured value or string). -/
def notRaised (r : PyRet α) : Prop :=
  match r with
  | .raised _ => False
  | _ => True

/-- A PyRet value that is a returned error string containing both the
kind name and the message of the given exception. -/
def isErrStrContaining (r : PyRet α) (e : Exc) : Prop :=
  match r with
  | .errStr s => e.kind.data <:+: s.data ∧ e.msg.data <:+: s.data
  | _ => False

/-- The uniform error-string shape asserted by the specification:
Error <verb>ing <entity> <quoted id> in <quoted container>: <rest>. -/
def specUniformErrorFormat (s : String) : Prop :=
  ∃ verb entity id container rest : String,
    s = "Error " ++ verb ++ "ing " ++ entity ++ " \x27" ++ id ++ "\x27 in \x27" ++
      container ++ "\x27: " ++ rest

/-- A sample delegate exception, standing for an HTTP failure raised by
the client library. -/
def excBoom : Exc := { kind := "HTTPError", msg := "404 Client Error" }

/-- A delegate whose every call raises excBoom. -/
def dFail : Delegate where
  bases := fun _ => .error excBoom
  tables := fun _ => .error excBoom
  get := fun _ _ _ => .error excBoom
  all := fun _ _ => .error excBoom
  create := fun _ _ _ => .error excBoom
  update := fun _ _ _ _ => .error excBoom
  delete := fun _ _ => .error excBoom
  batch_create := fun _ _ _ => .error excBoom
  batch_update := fun _ _ _ => .error excBoom
  batch_delete := fun _ _ => .error excBoom
  batch_upsert := fun _ _ _ _ => .error excBoom

/-- A sample record returned by the successful delegate. -/
def rec1 : RecordDict :=
  { id := "rec001", createdTime := "2024-01-01T00:00:00Z", fields := [("Name", "Test")] }

/-- A delegate whose every call returns a fixed structured value. -/
def dOk : Delegate where
  bases := fun _ => .ok [{ id := "appBase1" }]
  tables := fun _ => .ok [{ base_id := "appBase1", id := "tblTasks" }]
  get := fun _ _ _ => .ok rec1
  all := fun _ _ => .ok [rec1]
  create := fun _ _ _ => .ok rec1
  update := fun _ _ _ _ => .ok rec1
  delete := fun _ _ => .ok { id := "rec001", deleted := true }
  batch_create := fun _ _ _ => .ok [rec1]
  batch_update := fun _ _ _ => .ok [rec1]
  batch_delete := fun _ _ => .ok [{ id := "rec001", deleted := true }]
  batch_upsert := fun _ _ _ _ =>
    .ok { createdRecords := ["rec001"], updatedRecords := [], records := [rec1] }

/-- A delegate that raises everywhere except on create, where it behaves
like dOk. -/
def dMixed : Delegate := { dFail with create := dOk.create }

/-- An app constructed without an integration. -/
def appNone : AirtableApp := { integration := none }

/-- Credentials carrying a usable key under the primary spelling. -/
def credsOk : Credentials := [("api_key", some "keyXYZ")]

/-- An integration holding credsOk. -/
def integOk : Integration := { credentials := credsOk }

/-- An app with a configured integration. -/
def appOk : AirtableApp := { integration := some integOk }

/-- The client handle appOk resolves to. -/
def apiOk : Api := { api_key := some "keyXYZ" }

/-- The error string list_bases returns when no integration is set. -/
def listBasesNoneErr : String :=
  "Error listing bases: ValueError - Integration is not set for AirtableApp."

/-- An id-free upsert input with key value a. -/
def upsA : UpsertInput := { id := none, fields := [("Name", "a")] }

/-- An id-free upsert input with key value b. -/
def upsB : UpsertInput := { id := none, fields := [("Name", "b")] }

theorem strDataAppend (a b : String) : (a ++ b).data = a.data ++ b.data := by
  cases a; cases b; rfl

theorem pyTry_bind_error (g : Except Exc β) (k : β → Except Exc α)
    (h : Exc → String) (e : Exc) (hg : g = .error e) :
    pyTry (g >>= k) h = .errStr (h e) := by
  subst hg; rfl

theorem pyTry_bind_ok (g : Except Exc β) (k : β → Except Exc α)
    (h : Exc → String) (c : β) (hg : g = .ok c) :
    pyTry (g >>= k) h = pyTry (k c) h := by
  subst hg; rfl

theorem notRaised_pyTry (body : Except Exc α) (h : Exc → String) :
    notRaised (pyTry body h) := by
  cases body <;> simp [pyTry, notRaised]

theorem errString_parts (p : String) (e : Exc) :
    e.kind.data <:+: (p ++ e.kind ++ " - " ++ e.msg).data ∧
    e.msg.data <:+: (p ++ e.kind ++ " - " ++ e.msg).data := by
  constructor
  · exact ⟨p.data, (" - " : String).data ++ e.msg.data,
      by simp [strDataAppend, List.append_assoc]⟩
  · exact ⟨p.data ++ e.kind.data ++ (" - " : String).data, [],
      by simp [strDataAppend, List.append_assoc]⟩

theorem specUniformErrorFormat_has_quote (s : String)
    (h : specUniformErrorFormat s) : '\x27' ∈ s.data := by
  obtain ⟨verb, entity, id, container, rest, hs⟩ := h
  subst hs
  have h1 : '\x27' ∈ ("\x27 in \x27" : String).data := by decide
  simp only [strDataAppend, List.mem_append]
  tauto

theorem dictLookup_dictSet_self (o : List (String × α)) (k : String) (v : α) :
    dictLookup (dictSet o k v) k = some v := by
  induction o with
  | nil => simp [dictSet, dictLookup]
  | cons hd t ih =>
    obtain ⟨k1, v1⟩ := hd
    by_cases hk : k1 = k <;> simp [dictSet, dictLookup, hk, ih]

theorem convertFormulaOptions_eq_self (opts : Options)
    (h : ∀ f, dictLookup opts "formula" ≠ some (.formula f)) :
    convertFormulaOptions opts = opts := by
  unfold convertFormulaOptions
  cases hl : dictLookup opts "formula" with
  | none => rfl
  | some v =>
    cases v with
    | formula f => exact absurd hl (h f)
    | str s => rfl
    | num n => rfl
    | boolean b => rfl

theorem keysMatch_self (kf : List String) (fs : FieldsV) :
    keysMatch kf fs fs = true := by
  simp [keysMatch]

theorem keysMatch_eq_false (kf : List String) (fs1 fs2 : FieldsV)
    (h : projKeys kf fs1 ≠ projKeys kf fs2) :
    keysMatch kf fs1 fs2 = false := by
  simp [keysMatch]
  exact h

/-- Claim C8: list_tools returns a fixed, static list of exactly the
eleven operations, as the full capability surface, independent of any
state or input. -/
theorem C8_list_tools_static (app : AirtableApp) :
    app.list_tools =
      [Tool.list_bases, Tool.list_tables, Tool.get_record, Tool.list_records,
       Tool.create_record, Tool.update_record, Tool.delete_record,
       Tool.batch_create_records, Tool.batch_update_records,
       Tool.batch_delete_records, Tool.batch_upsert_records] ∧
    app.list_tools.length = 11 :=
  ⟨rfl, rfl⟩

/-- Claim C2 counterexample: invoking an operation on an app with no
integration configured does not raise; it returns an error string. -/
theorem C2_counterexample :
    AirtableApp.list_bases appNone dOk = .errStr listBasesNoneErr := by
  rfl

/-- Claim C2 (amended): no failure category propagates out of any
operation as a raised exception; the configuration error (missing
integration) is raised inside the client acquisition but caught at the
operation boundary and returned as a descriptive ValueError string, like
every other failure category. -/
theorem C2_no_failure_propagates :
    (∀ (app : AirtableApp) (d : Delegate), notRaised (app.list_bases d)) ∧
    (∀ (app : AirtableApp) (d : Delegate) (b : String), notRaised (app.list_tables d b)) ∧
    (∀ (app : AirtableApp) (d : Delegate) (b t rid : String) (o : Options),
      notRaised (app.get_record d b t rid o)) ∧
    (∀ (app : AirtableApp) (d : Delegate) (b t : String) (o : Options),
      notRaised (app.list_records d b t o)) ∧
    (∀ (app : AirtableApp) (d : Delegate) (b t : String) (fs : FieldsV) (o : Options),
      notRaised (app.create_record d b t fs o)) ∧
    (∀ (app : AirtableApp) (d : Delegate) (b t rid : String) (fs : FieldsV) (o : Options),
      notRaised (app.update_record d b t rid fs o)) ∧
    (∀ (app : AirtableApp) (d : Delegate) (b t rid : String),
      notRaised (app.delete_record d b t rid)) ∧
    (∀ (app : AirtableApp) (d : Delegate) (b t : String) (rs : List FieldsV) (o : Options),
      notRaised (app.batch_create_records d b t rs o)) ∧
    (∀ (app : AirtableApp) (d : Delegate) (b t : String) (rs : List UpdateRecordDict)
      (o : Options), notRaised (app.batch_update_records d b t rs o)) ∧
    (∀ (app : AirtableApp) (d : Delegate) (b t : String) (rids : List String),
      notRaised (app.batch_delete_records d b t rids)) ∧
    (∀ (app : AirtableApp) (d : Delegate) (b t : String) (rs : List UpsertInput)
      (kf : List String) (o : Options), notRaised (app.batch_upsert_records d b t rs kf o)) ∧
    (∀ (d : Delegate), appNone.list_bases d =
      .errStr ("Error listing bases: " ++ "ValueError" ++ " - " ++
        "Integration is not set for AirtableApp.")) ∧
    (∀ (d : Delegate) (b : String), appNone.list_tables d b =
      .errStr ("Error listing tables for base \x27" ++ b ++ "\x27: " ++ "ValueError" ++
        " - " ++ "Integration is not set for AirtableApp.")) ∧
    (∀ (d : Delegate) (b t rid : String) (o : Options), appNone.get_record d b t rid o =
      .errStr ("Error getting record \x27" ++ rid ++ "\x27 from \x27" ++ t ++
        "\x27 in \x27" ++ b ++ "\x27: " ++ "ValueError" ++ " - " ++
        "Integration is not set for AirtableApp.")) ∧
    (∀ (d : Delegate) (b t : String) (o : Options), appNone.list_records d b t o =
      .errStr ("Error listing records from \x27" ++ t ++ "\x27 in \x27" ++ b ++
        "\x27: " ++ "ValueError" ++ " - " ++ "Integration is not set for AirtableApp.")) ∧
    (∀ (d : Delegate) (b t : String) (fs : FieldsV) (o : Options),
      appNone.create_record d b t fs o =
      .errStr ("Error creating record in \x27" ++ t ++ "\x27 in \x27" ++ b ++
        "\x27: " ++ "ValueError" ++ " - " ++ "Integration is not set for AirtableApp.")) ∧
    (∀ (d : Delegate) (b t rid : String) (fs : FieldsV) (o : Options),
      appNone.update_record d b t rid fs o =
      .errStr ("Error updating record \x27" ++ rid ++ "\x27 in \x27" ++ t ++
        "\x27 in \x27" ++ b ++ "\x27: " ++ "ValueError" ++ " - " ++
        "Integration is not set for AirtableApp.")) ∧
    (∀ (d : Delegate) (b t rid : String), appNone.delete_record d b t rid =
      .errStr ("Error deleting record \x27" ++ rid ++ "\x27 from \x27" ++ t ++
        "\x27 in \x27" ++ b ++ "\x27: " ++ "ValueError" ++ " - " ++
        "Integration is not set for AirtableApp.")) ∧
    (∀ (d : Delegate) (b t : String) (rs : List FieldsV) (o : Options),
      appNone.batch_create_records d b t rs o =
      .errStr ("Error batch creating records in \x27" ++ t ++ "\x27 in \x27" ++ b ++
        "\x27: " ++ "ValueError" ++ " - " ++ "Integration is not set for AirtableApp.")) ∧
    (∀ (d : Delegate) (b t : String) (rs : List UpdateRecordDict) (o : Options),
      appNone.batch_update_records d b t rs o =
      .errStr ("Error batch updating records in \x27" ++ t ++ "\x27 in \x27" ++ b ++
        "\x27: " ++ "ValueError" ++ " - " ++ "Integration is not set for AirtableApp.")) ∧
    (∀ (d : Delegate) (b t : String) (rids : List String),
      appNone.batch_delete_records d b t rids =
      .errStr ("Error batch deleting records from \x27" ++ t ++ "\x27 in \x27" ++ b ++
        "\x27: " ++ "ValueError" ++ " - " ++ "Integration is not set for AirtableApp.")) ∧
    (∀ (d : Delegate) (b t : String) (rs : List UpsertInput) (kf : List String)
      (o : Options), appNone.batch_upsert_records d b t rs kf o =
      .errStr ("Error batch upserting records in \x27" ++ t ++ "\x27 in \x27" ++ b ++
        "\x27: " ++ "ValueError" ++ " - " ++ "Integration is not set for AirtableApp.")) := by
  refine ⟨?_, ?_, ?_, ?_, ?_, ?_, ?_, ?_, ?_, ?_, ?_, ?_, ?_, ?_, ?_, ?_, ?_, ?_, ?_, ?_, ?_, ?_⟩ <;>
    first
      | (intros; exact notRaised_pyTry _ _)
      | (intros; rfl)

/-- Claim C6 counterexample: with no integration, client acquisition
fails with a ValueError, not an AuthenticationError; and with an
integration whose credentials hold no usable key it does not fail at
all, returning a handle bound to no key. -/
theorem C6_counterexample :
    AirtableApp._get_client appNone =
      .error { kind := "ValueError", msg := "Integration is not set for AirtableApp." } ∧
    AirtableApp._get_client { integration := some { credentials := [] } } =
      .ok { api_key := none } ∧
    integrationNotSetExc.kind ≠ "AuthenticationError" :=
  ⟨rfl, rfl, by decide⟩

/-- Claim C6 (amended): acquiring the client handle raises a ValueError
when no integration is configured; when an integration is present the
acquisition never fails locally, even when no usable key is found among
the accepted key names: the handle is bound to the selected (possibly
absent) key and any authentication failure surfaces only on a later
delegate call. -/
theorem C6_client_acquisition (app : AirtableApp) (integ : Integration) :
    (app.integration = none → app._get_client = .error integrationNotSetExc) ∧
    AirtableApp._get_client { integration := some integ } =
      .ok { api_key := apiKeyOf integ.credentials } := by
  constructor
  · intro h
    obtain ⟨i⟩ := app
    have h2 : i = none := h
    subst h2
    rfl
  · rfl

/-- Claim C6 amended witness at a concrete app without integration. -/
theorem C6_client_acquisition_witness :
    AirtableApp._get_client appNone = .error integrationNotSetExc :=
  (C6_client_acquisition appNone integOk).1 rfl

/-- Claim C10: the api key is looked up under the spellings api_key,
apiKey, API_KEY in that order; a falsy value under an earlier spelling
falls through to the next; the first truthy value found is the key the
client handle is bound to. -/
theorem C10_key_precedence :
    (∀ (creds : Credentials) (v : String), dictGet creds "api_key" = some v → v ≠ "" →
      AirtableApp._get_client { integration := some { credentials := creds } } =
        .ok { api_key := some v }) ∧
    (∀ (creds : Credentials) (v : String), pyTruthy (dictGet creds "api_key") = false →
      dictGet creds "apiKey" = some v → v ≠ "" →
      AirtableApp._get_client { integration := some { credentials := creds } } =
        .ok { api_key := some v }) ∧
    (∀ (creds : Credentials), pyTruthy (dictGet creds "api_key") = false →
      pyTruthy (dictGet creds "apiKey") = false →
      AirtableApp._get_client { integration := some { credentials := creds } } =
        .ok { api_key := dictGet creds "API_KEY" }) := by
  refine ⟨?_, ?_, ?_⟩
  · intro creds v h hne
    have hb : (v == "") = false := beq_eq_false_iff_ne.mpr hne
    simp [AirtableApp._get_client, pyOr, pyTruthy, h, hb]
  · intro creds v h0 h hne
    have hb : (v == "") = false := beq_eq_false_iff_ne.mpr hne
    simp only [AirtableApp._get_client, pyOr, h0, h]
    simp [pyTruthy, hb]
  · intro creds h0 h1
    simp [AirtableApp._get_client, pyOr, h0, h1]

/-- Claim C10 witness: an empty-string value under api_key falls through
to the apiKey spelling. -/
theorem C10_key_precedence_witness :
    AirtableApp._get_client
      { integration := some { credentials := [("api_key", some ""), ("apiKey", some "K2")] } } =
      .ok { api_key := some "K2" } :=
  C10_key_precedence.2.1 [("api_key", some ""), ("apiKey", some "K2")] "K2" rfl rfl
    (by decide)

theorem isErrStr_pyTry_bind_error (g : Except Exc β) (k : β → Except Exc α)
    (p : String) (e : Exc) (hg : g = .error e) :
    isErrStrContaining (pyTry (g >>= k) (fun e1 => p ++ e1.kind ++ " - " ++ e1.msg)) e := by
  subst hg
  exact errString_parts p e

theorem isErrStr_pyTry_bind_ok_error (g : Except Exc β) (k : β → Except Exc α)
    (p : String) (c : β) (e : Exc) (hg : g = .ok c) (hk : k c = .error e) :
    isErrStrContaining (pyTry (g >>= k) (fun e1 => p ++ e1.kind ++ " - " ++ e1.msg)) e := by
  subst hg
  show isErrStrContaining (pyTry (k c) (fun e1 => p ++ e1.kind ++ " - " ++ e1.msg)) e
  rw [hk]
  exact errString_parts p e

/-- Claim C1: for each of the eleven operations, if an exception is
raised during client-handle resolution or during delegation, the
operation does not raise: it returns a string containing the exception
kind name and its message. -/
theorem C1_exceptions_become_strings :
    (∀ (app : AirtableApp) (d : Delegate) (e : Exc),
      (app._get_client = .error e ∨
        ∃ c, app._get_client = .ok c ∧ d.bases c = .error e) →
      isErrStrContaining (app.list_bases d) e) ∧
    (∀ (app : AirtableApp) (d : Delegate) (b : String) (e : Exc),
      (app._get_client = .error e ∨
        ∃ c, app._get_client = .ok c ∧ d.tables { api := c, base_id := b } = .error e) →
      isErrStrContaining (app.list_tables d b) e) ∧
    (∀ (app : AirtableApp) (d : Delegate) (b t rid : String) (o : Options) (e : Exc),
      (app._get_client = .error e ∨
        ∃ c, app._get_client = .ok c ∧
          d.get { api := c, base_id := b, table_name := t } rid o = .error e) →
      isErrStrContaining (app.get_record d b t rid o) e) ∧
    (∀ (app : AirtableApp) (d : Delegate) (b t : String) (o : Options) (e : Exc),
      (app._get_client = .error e ∨
        ∃ c, app._get_client = .ok c ∧
          d.all { api := c, base_id := b, table_name := t } (convertFormulaOptions o) =
            .error e) →
      isErrStrContaining (app.list_records d b t o) e) ∧
    (∀ (app : AirtableApp) (d : Delegate) (b t : String) (fs : FieldsV) (o : Options)
      (e : Exc),
      (app._get_client = .error e ∨
        ∃ c, app._get_client = .ok c ∧
          d.create { api := c, base_id := b, table_name := t } fs o = .error e) →
      isErrStrContaining (app.create_record d b t fs o) e) ∧
    (∀ (app : AirtableApp) (d : Delegate) (b t rid : String) (fs : FieldsV) (o : Options)
      (e : Exc),
      (app._get_client = .error e ∨
        ∃ c, app._get_client = .ok c ∧
          d.update { api := c, base_id := b, table_name := t } rid fs o = .error e) →
      isErrStrContaining (app.update_record d b t rid fs o) e) ∧
    (∀ (app : AirtableApp) (d : Delegate) (b t rid : String) (e : Exc),
      (app._get_client = .error e ∨
        ∃ c, app._get_client = .ok c ∧
          d.delete { api := c, base_id := b, table_name := t } rid = .error e) →
      isErrStrContaining (app.delete_record d b t rid) e) ∧
    (∀ (app : AirtableApp) (d : Delegate) (b t : String) (rs : List FieldsV) (o : Options)
      (e : Exc),
      (app._get_client = .error e ∨
        ∃ c, app._get_client = .ok c ∧
          d.batch_create { api := c, base_id := b, table_name := t } rs o = .error e) →
      isErrStrContaining (app.batch_create_records d b t rs o) e) ∧
    (∀ (app : AirtableApp) (d : Delegate) (b t : String) (rs : List UpdateRecordDict)
      (o : Options) (e : Exc),
      (app._get_client = .error e ∨
        ∃ c, app._get_client = .ok c ∧
          d.batch_update { api := c, base_id := b, table_name := t } rs o = .error e) →
      isErrStrContaining (app.batch_update_records d b t rs o) e) ∧
    (∀ (app : AirtableApp) (d : Delegate) (b t : String) (rids : List String) (e : Exc),
      (app._get_client = .error e ∨
        ∃ c, app._get_client = .ok c ∧
          d.batch_delete { api := c, base_id := b, table_name := t } rids = .error e) →
      isErrStrContaining (app.batch_delete_records d b t rids) e) ∧
    (∀ (app : AirtableApp) (d : Delegate) (b t : String) (rs : List UpsertInput)
      (kf : List String) (o : Options) (e : Exc),
      (app._get_client = .error e ∨
        ∃ c, app._get_client = .ok c ∧
          d.batch_upsert { api := c, base_id := b, table_name := t } rs kf o = .error e) →
      isErrStrContaining (app.batch_upsert_records d b t rs kf o) e) := by
  refine ⟨?_, ?_, ?_, ?_, ?_, ?_, ?_, ?_, ?_, ?_, ?_⟩ <;>
    · intros app d
      intros
      rename_i e h
      rcases h with hgc | ⟨c, hgc, hd⟩
      · exact isErrStr_pyTry_bind_error _ _ _ _ hgc
      · exact isErrStr_pyTry_bind_ok_error _ _ _ _ _ hgc hd

/-- Claim C1 witness: the configuration failure on list_bases yields a
string containing ValueError and its message. -/
theorem C1_exceptions_become_strings_witness :
    isErrStrContaining (appNone.list_bases dFail) integrationNotSetExc :=
  C1_exceptions_become_strings.1 appNone dFail integrationNotSetExc (Or.inl rfl)

theorem pyTry_bind_ok_ok (g : Except Exc β) (k : β → Except Exc α) (h : Exc → String)
    (c : β) (v : α) (hg : g = .ok c) (hk : k c = .ok v) :
    pyTry (g >>= k) h = .ok v := by
  subst hg
  show pyTry (k c) h = .ok v
  rw [hk]
  rfl

/-- Claim C3: for each of the eleven operations, when the client handle
resolves and the delegate call returns without raising, the operation
returns exactly the delegate result, unmodified: a structured value,
never a string. -/
theorem C3_pass_through_fidelity :
    (∀ (app : AirtableApp) (d : Delegate) (c : Api) (v : List BaseObj),
      app._get_client = .ok c → d.bases c = .ok v → app.list_bases d = .ok v) ∧
    (∀ (app : AirtableApp) (d : Delegate) (b : String) (c : Api) (v : List TableObj),
      app._get_client = .ok c → d.tables { api := c, base_id := b } = .ok v →
      app.list_tables d b = .ok v) ∧
    (∀ (app : AirtableApp) (d : Delegate) (b t rid : String) (o : Options) (c : Api)
      (v : RecordDict), app._get_client = .ok c →
      d.get { api := c, base_id := b, table_name := t } rid o = .ok v →
      app.get_record d b t rid o = .ok v) ∧
    (∀ (app : AirtableApp) (d : Delegate) (b t : String) (o : Options) (c : Api)
      (v : List RecordDict), app._get_client = .ok c →
      d.all { api := c, base_id := b, table_name := t } (convertFormulaOptions o) = .ok v →
      app.list_records d b t o = .ok v) ∧
    (∀ (app : AirtableApp) (d : Delegate) (b t : String) (fs : FieldsV) (o : Options)
      (c : Api) (v : RecordDict), app._get_client = .ok c →
      d.create { api := c, base_id := b, table_name := t } fs o = .ok v →
      app.create_record d b t fs o = .ok v) ∧
    (∀ (app : AirtableApp) (d : Delegate) (b t rid : String) (fs : FieldsV) (o : Options)
      (c : Api) (v : RecordDict), app._get_client = .ok c →
      d.update { api := c, base_id := b, table_name := t } rid fs o = .ok v →
      app.update_record d b t rid fs o = .ok v) ∧
    (∀ (app : AirtableApp) (d : Delegate) (b t rid : String) (c : Api)
      (v : RecordDeletedDict), app._get_client = .ok c →
      d.delete { api := c, base_id := b, table_name := t } rid = .ok v →
      app.delete_record d b t rid = .ok v) ∧
    (∀ (app : AirtableApp) (d : Delegate) (b t : String) (rs : List FieldsV) (o : Options)
      (c : Api) (v : List RecordDict), app._get_client = .ok c →
      d.batch_create { api := c, base_id := b, table_name := t } rs o = .ok v →
      app.batch_create_records d b t rs o = .ok v) ∧
    (∀ (app : AirtableApp) (d : Delegate) (b t : String) (rs : List UpdateRecordDict)
      (o : Options) (c : Api) (v : List RecordDict), app._get_client = .ok c →
      d.batch_update { api := c, base_id := b, table_name := t } rs o = .ok v →
      app.batch_update_records d b t rs o = .ok v) ∧
    (∀ (app : AirtableApp) (d : Delegate) (b t : String) (rids : List String) (c : Api)
      (v : List RecordDeletedDict), app._get_client = .ok c →
      d.batch_delete { api := c, base_id := b, table_name := t } rids = .ok v →
      app.batch_delete_records d b t rids = .ok v) ∧
    (∀ (app : AirtableApp) (d : Delegate) (b t : String) (rs : List UpsertInput)
      (kf : List String) (o : Options) (c : Api) (v : UpsertResultDict),
      app._get_client = .ok c →
      d.batch_upsert { api := c, base_id := b, table_name := t } rs kf o = .ok v →
      app.batch_upsert_records d b t rs kf o = .ok v) := by
  refine ⟨?_, ?_, ?_, ?_, ?_, ?_, ?_, ?_, ?_, ?_, ?_⟩ <;>
    · intros
      rename_i hgc hd
      exact pyTry_bind_ok_ok _ _ _ _ _ hgc hd

/-- Claim C3 witness: with valid credentials and a successful delegate,
list_bases returns the delegate value itself. -/
theorem C3_pass_through_fidelity_witness :
    appOk.list_bases dOk = .ok [{ id := "appBase1" }] :=
  C3_pass_through_fidelity.1 appOk dOk apiOk [{ id := "appBase1" }] rfl rfl

theorem pyTry_bind_ok_error (g : Except Exc β) (k : β → Except Exc α) (h : Exc → String)
    (c : β) (e : Exc) (hg : g = .ok c) (hk : k c = .error e) :
    pyTry (g >>= k) h = .errStr (h e) := by
  subst hg
  show pyTry (k c) h = .errStr (h e)
  rw [hk]
  rfl

/-- Claim C5 counterexample: the error string of list_bases under the
configuration failure does not have the claimed uniform shape
Error <verb>ing <entity> <quoted id> in <quoted container>: ..., since
it contains no quote character at all. -/
theorem C5_counterexample :
    AirtableApp.list_bases appNone dOk = .errStr listBasesNoneErr ∧
    ¬ specUniformErrorFormat listBasesNoneErr := by
  refine ⟨rfl, fun h => ?_⟩
  have hq := specUniformErrorFormat_has_quote _ h
  exact absurd hq (by decide)

/-- Claim C5 (amended): every operation on a caught failure returns a
string of the shape Error <operation-specific context>: <ExceptionKind>
- <message>, with the exact context of each operation as listed here;
delete_record in particular returns a string beginning with
Error deleting record <quoted record id>. The single uniform template
with a quoted id and quoted container does not hold for list_bases or
list_tables. -/
theorem C5_error_string_formats :
    (∀ (app : AirtableApp) (d : Delegate) (e : Exc),
      (app._get_client = .error e ∨
        ∃ c, app._get_client = .ok c ∧ d.bases c = .error e) →
      app.list_bases d = .errStr ("Error listing bases: " ++ e.kind ++ " - " ++ e.msg)) ∧
    (∀ (app : AirtableApp) (d : Delegate) (b : String) (e : Exc),
      (app._get_client = .error e ∨
        ∃ c, app._get_client = .ok c ∧ d.tables { api := c, base_id := b } = .error e) →
      app.list_tables d b = .errStr ("Error listing tables for base \x27" ++ b ++
        "\x27: " ++ e.kind ++ " - " ++ e.msg)) ∧
    (∀ (app : AirtableApp) (d : Delegate) (b t rid : String) (o : Options) (e : Exc),
      (app._get_client = .error e ∨
        ∃ c, app._get_client = .ok c ∧
          d.get { api := c, base_id := b, table_name := t } rid o = .error e) →
      app.get_record d b t rid o = .errStr ("Error getting record \x27" ++ rid ++
        "\x27 from \x27" ++ t ++ "\x27 in \x27" ++ b ++ "\x27: " ++
        e.kind ++ " - " ++ e.msg)) ∧
    (∀ (app : AirtableApp) (d : Delegate) (b t : String) (o : Options) (e : Exc),
      (app._get_client = .error e ∨
        ∃ c, app._get_client = .ok c ∧
          d.all { api := c, base_id := b, table_name := t } (convertFormulaOptions o) =
            .error e) →
      app.list_records d b t o = .errStr ("Error listing records from \x27" ++ t ++
        "\x27 in \x27" ++ b ++ "\x27: " ++ e.kind ++ " - " ++ e.msg)) ∧
    (∀ (app : AirtableApp) (d : Delegate) (b t : String) (fs : FieldsV) (o : Options)
      (e : Exc),
      (app._get_client = .error e ∨
        ∃ c, app._get_client = .ok c ∧
          d.create { api := c, base_id := b, table_name := t } fs o = .error e) →
      app.create_record d b t fs o = .errStr ("Error creating record in \x27" ++ t ++
        "\x27 in \x27" ++ b ++ "\x27: " ++ e.kind ++ " - " ++ e.msg)) ∧
    (∀ (app : AirtableApp) (d : Delegate) (b t rid : String) (fs : FieldsV) (o : Options)
      (e : Exc),
      (app._get_client = .error e ∨
        ∃ c, app._get_client = .ok c ∧
          d.update { api := c, base_id := b, table_name := t } rid fs o = .error e) →
      app.update_record d b t rid fs o = .errStr ("Error updating record \x27" ++ rid ++
        "\x27 in \x27" ++ t ++ "\x27 in \x27" ++ b ++ "\x27: " ++
        e.kind ++ " - " ++ e.msg)) ∧
    (∀ (app : AirtableApp) (d : Delegate) (b t rid : String) (e : Exc),
      (app._get_client = .error e ∨
        ∃ c, app._get_client = .ok c ∧
          d.delete { api := c, base_id := b, table_name := t } rid = .error e) →
      app.delete_record d b t rid = .errStr ("Error deleting record \x27" ++ rid ++
        "\x27 from \x27" ++ t ++ "\x27 in \x27" ++ b ++ "\x27: " ++
        e.kind ++ " - " ++ e.msg)) ∧
    (∀ (app : AirtableApp) (d : Delegate) (b t : String) (rs : List FieldsV) (o : Options)
      (e : Exc),
      (app._get_client = .error e ∨
        ∃ c, app._get_client = .ok c ∧
          d.batch_create { api := c, base_id := b, table_name := t } rs o = .error e) →
      app.batch_create_records d b t rs o = .errStr ("Error batch creating records in \x27" ++
        t ++ "\x27 in \x27" ++ b ++ "\x27: " ++ e.kind ++ " - " ++ e.msg)) ∧
    (∀ (app : AirtableApp) (d : Delegate) (b t : String) (rs : List UpdateRecordDict)
      (o : Options) (e : Exc),
      (app._get_client = .error e ∨
        ∃ c, app._get_client = .ok c ∧
          d.batch_update { api := c, base_id := b, table_name := t } rs o = .error e) →
      app.batch_update_records d b t rs o = .errStr ("Error batch updating records in \x27" ++
        t ++ "\x27 in \x27" ++ b ++ "\x27: " ++ e.kind ++ " - " ++ e.msg)) ∧
    (∀ (app : AirtableApp) (d : Delegate) (b t : String) (rids : List String) (e : Exc),
      (app._get_client = .error e ∨
        ∃ c, app._get_client = .ok c ∧
          d.batch_delete { api := c, base_id := b, table_name := t } rids = .error e) →
      app.batch_delete_records d b t rids = .errStr ("Error batch deleting records from \x27" ++
        t ++ "\x27 in \x27" ++ b ++ "\x27: " ++ e.kind ++ " - " ++ e.msg)) ∧
    (∀ (app : AirtableApp) (d : Delegate) (b t : String) (rs : List UpsertInput)
      (kf : List String) (o : Options) (e : Exc),
      (app._get_client = .error e ∨
        ∃ c, app._get_client = .ok c ∧
          d.batch_upsert { api := c, base_id := b, table_name := t } rs kf o = .error e) →
      app.batch_upsert_records d b t rs kf o = .errStr ("Error batch upserting records in \x27" ++
        t ++ "\x27 in \x27" ++ b ++ "\x27: " ++ e.kind ++ " - " ++ e.msg)) ∧
    (AirtableApp.delete_record appOk dFail "baseX" "Tasks" "recNotExist" =
      .errStr "Error deleting record \x27recNotExist\x27 from \x27Tasks\x27 in \x27baseX\x27: HTTPError - 404 Client Error" ∧
     ("Error deleting record \x27recNotExist\x27" : String).data <+:
       ("Error deleting record \x27recNotExist\x27 from \x27Tasks\x27 in \x27baseX\x27: HTTPError - 404 Client Error" : String).data) := by
  refine ⟨?_, ?_, ?_, ?_, ?_, ?_, ?_, ?_, ?_, ?_, ?_, ⟨by rfl, by decide⟩⟩ <;>
    · intros app d
      intros
      rename_i e h
      rcases h with hgc | ⟨c, hgc, hd⟩
      · exact pyTry_bind_error _ _ _ _ hgc
      · exact pyTry_bind_ok_error _ _ _ _ _ hgc hd

/-- Claim C5 witness: a delegate failure on list_bases is rendered in
the list_bases format. -/
theorem C5_error_string_formats_witness :
    appOk.list_bases dFail =
      .errStr ("Error listing bases: " ++ excBoom.kind ++ " - " ++ excBoom.msg) :=
  C5_error_string_formats.1 appOk dFail excBoom (Or.inr ⟨apiOk, rfl, rfl⟩)

theorem pyTry_bind_congr (g : Except Exc β) (k1 k2 : β → Except Exc α) (h : Exc → String)
    (c : β) (hg : g = .ok c) (hk : k1 c = k2 c) :
    pyTry (g >>= k1) h = pyTry (g >>= k2) h := by
  subst hg
  show pyTry (k1 c) h = pyTry (k2 c) h
  rw [hk]

/-- Claim C4: list_records with a structured Formula object in the
options bag behaves exactly as list_records with the serialized string
to_formula_str f in its place, for every delegate (same delegate call);
the conversion is the function to_formula_str, hence deterministic; and
an options bag whose formula entry is not a structured Formula object is
passed to the delegate unchanged. -/
theorem C4_formula_conversion :
    (∀ (app : AirtableApp) (d : Delegate) (b t : String) (opts : Options) (f : Formula),
      dictLookup opts "formula" = some (.formula f) →
      app.list_records d b t opts =
        app.list_records d b t (dictSet opts "formula" (.str (to_formula_str f)))) ∧
    (∀ opts : Options, (∀ f, dictLookup opts "formula" ≠ some (.formula f)) →
      convertFormulaOptions opts = opts) := by
  constructor
  · intro app d b t opts f hf
    have h1 : convertFormulaOptions opts =
        dictSet opts "formula" (OptVal.str (to_formula_str f)) := by
      simp [convertFormulaOptions, hf]
    have h2 : convertFormulaOptions
        (dictSet opts "formula" (OptVal.str (to_formula_str f))) =
        dictSet opts "formula" (OptVal.str (to_formula_str f)) := by
      simp [convertFormulaOptions, dictLookup_dictSet_self]
    simp only [AirtableApp.list_records, h1, h2]
  · exact convertFormulaOptions_eq_self

/-- Claim C4 witness at a concrete formula and options bag. -/
theorem C4_formula_conversion_witness :
    appOk.list_records dOk "baseX" "Tasks"
      [("view", .str "Grid"), ("formula", .formula (.eqF "Name" "Test"))] =
    appOk.list_records dOk "baseX" "Tasks"
      (dictSet [("view", .str "Grid"), ("formula", .formula (.eqF "Name" "Test"))]
        "formula" (.str (to_formula_str (.eqF "Name" "Test")))) :=
  C4_formula_conversion.1 appOk dOk "baseX" "Tasks" _ _ rfl

/-- Claim C7: the adapter forwards record contents unmodified: each
operation depends on its delegate only through the delegate call at
exactly the caller-supplied fields, records, record_ids and key_fields
(and options), the sole exception being the formula conversion in
list_records, which is the identity whenever the formula entry is not a
structured Formula object. -/
theorem C7_no_mutation_of_arguments :
    (∀ (app : AirtableApp) (c : Api) (d1 d2 : Delegate) (b t rid : String) (o : Options),
      app._get_client = .ok c →
      d1.get { api := c, base_id := b, table_name := t } rid o =
        d2.get { api := c, base_id := b, table_name := t } rid o →
      app.get_record d1 b t rid o = app.get_record d2 b t rid o) ∧
    (∀ (app : AirtableApp) (c : Api) (d1 d2 : Delegate) (b t : String) (fs : FieldsV)
      (o : Options), app._get_client = .ok c →
      d1.create { api := c, base_id := b, table_name := t } fs o =
        d2.create { api := c, base_id := b, table_name := t } fs o →
      app.create_record d1 b t fs o = app.create_record d2 b t fs o) ∧
    (∀ (app : AirtableApp) (c : Api) (d1 d2 : Delegate) (b t rid : String) (fs : FieldsV)
      (o : Options), app._get_client = .ok c →
      d1.update { api := c, base_id := b, table_name := t } rid fs o =
        d2.update { api := c, base_id := b, table_name := t } rid fs o →
      app.update_record d1 b t rid fs o = app.update_record d2 b t rid fs o) ∧
    (∀ (app : AirtableApp) (c : Api) (d1 d2 : Delegate) (b t rid : String),
      app._get_client = .ok c →
      d1.delete { api := c, base_id := b, table_name := t } rid =
        d2.delete { api := c, base_id := b, table_name := t } rid →
      app.delete_record d1 b t rid = app.delete_record d2 b t rid) ∧
    (∀ (app : AirtableApp) (c : Api) (d1 d2 : Delegate) (b t : String) (rs : List FieldsV)
      (o : Options), app._get_client = .ok c →
      d1.batch_create { api := c, base_id := b, table_name := t } rs o =
        d2.batch_create { api := c, base_id := b, table_name := t } rs o →
      app.batch_create_records d1 b t rs o = app.batch_create_records d2 b t rs o) ∧
    (∀ (app : AirtableApp) (c : Api) (d1 d2 : Delegate) (b t : String)
      (rs : List UpdateRecordDict) (o : Options), app._get_client = .ok c →
      d1.batch_update { api := c, base_id := b, table_name := t } rs o =
        d2.batch_update { api := c, base_id := b, table_name := t } rs o →
      app.batch_update_records d1 b t rs o = app.batch_update_records d2 b t rs o) ∧
    (∀ (app : AirtableApp) (c : Api) (d1 d2 : Delegate) (b t : String)
      (rids : List String), app._get_client = .ok c →
      d1.batch_delete { api := c, base_id := b, table_name := t } rids =
        d2.batch_delete { api := c, base_id := b, table_name := t } rids →
      app.batch_delete_records d1 b t rids = app.batch_delete_records d2 b t rids) ∧
    (∀ (app : AirtableApp) (c : Api) (d1 d2 : Delegate) (b t : String)
      (rs : List UpsertInput) (kf : List String) (o : Options), app._get_client = .ok c →
      d1.batch_upsert { api := c, base_id := b, table_name := t } rs kf o =
        d2.batch_upsert { api := c, base_id := b, table_name := t } rs kf o →
      app.batch_upsert_records d1 b t rs kf o = app.batch_upsert_records d2 b t rs kf o) ∧
    (∀ (app : AirtableApp) (c : Api) (d1 d2 : Delegate) (b t : String) (o : Options),
      app._get_client = .ok c →
      (∀ f, dictLookup o "formula" ≠ some (.formula f)) →
      d1.all { api := c, base_id := b, table_name := t } o =
        d2.all { api := c, base_id := b, table_name := t } o →
      app.list_records d1 b t o = app.list_records d2 b t o) := by
  refine ⟨?_, ?_, ?_, ?_, ?_, ?_, ?_, ?_, ?_⟩
  · intros
    rename_i hgc hagree
    exact pyTry_bind_congr _ _ _ _ _ hgc hagree
  · intros
    rename_i hgc hagree
    exact pyTry_bind_congr _ _ _ _ _ hgc hagree
  · intros
    rename_i hgc hagree
    exact pyTry_bind_congr _ _ _ _ _ hgc hagree
  · intros
    rename_i hgc hagree
    exact pyTry_bind_congr _ _ _ _ _ hgc hagree
  · intros
    rename_i hgc hagree
    exact pyTry_bind_congr _ _ _ _ _ hgc hagree
  · intros
    rename_i hgc hagree
    exact pyTry_bind_congr _ _ _ _ _ hgc hagree
  · intros
    rename_i hgc hagree
    exact pyTry_bind_congr _ _ _ _ _ hgc hagree
  · intros
    rename_i hgc hagree
    exact pyTry_bind_congr _ _ _ _ _ hgc hagree
  · intro app c d1 d2 b t o hgc hno hagree
    refine pyTry_bind_congr _ _ _ _ _ hgc ?_
    show d1.all { api := c, base_id := b, table_name := t } (convertFormulaOptions o) =
      d2.all { api := c, base_id := b, table_name := t } (convertFormulaOptions o)
    rw [convertFormulaOptions_eq_self _ hno]
    exact hagree

/-- Claim C7 witness: two delegates agreeing on create at the supplied
arguments give identical create_record results. -/
theorem C7_no_mutation_of_arguments_witness :
    appOk.create_record dOk "baseX" "Tasks" [("Name", "Test")] [] =
      appOk.create_record dMixed "baseX" "Tasks" [("Name", "Test")] [] :=
  C7_no_mutation_of_arguments.2.1 appOk apiOk dOk dMixed "baseX" "Tasks"
    [("Name", "Test")] [] rfl rfl

theorem runUpserts_fresh (kf : List String) :
    ∀ (inputs : List UpsertInput) (R : List Row) (n : Nat),
    (∀ inp ∈ inputs, inp.id = none) →
    List.Pairwise (fun a b => projKeys kf a.fields ≠ projKeys kf b.fields) inputs →
    (∀ inp ∈ inputs, ∀ r ∈ R, keysMatch kf r.fields inp.fields = false) →
    runUpserts kf { rows := R, nextId := n } inputs =
      ({ rows := R ++ freshRows n inputs, nextId := n + inputs.length },
        freshIds n inputs, []) := by
  intro inputs
  induction inputs with
  | nil =>
    intro R n _ _ _
    simp [runUpserts, freshRows, freshIds]
  | cons inp rest ih =>
    intro R n hid hdist hnom
    have hidh : inp.id = none := hid inp (List.mem_cons_self _ _)
    have hfind : List.find? (fun r => keysMatch kf r.fields inp.fields) R = none := by
      rw [List.find?_eq_none]
      intro r hr
      simp [hnom inp (List.mem_cons_self _ _) r hr]
    have hup : upsertOne kf { rows := R, nextId := n } inp =
        ({ rows := R ++ [{ id := "rec" ++ toString n, fields := inp.fields }],
           nextId := n + 1 }, ["rec" ++ toString n], []) := by
      simp [upsertOne, hidh, hfind]
    have hnom2 : ∀ i ∈ rest,
        ∀ r ∈ R ++ [{ id := "rec" ++ toString n, fields := inp.fields }],
        keysMatch kf r.fields i.fields = false := by
      intro i hi r hr
      rcases List.mem_append.mp hr with hr1 | hr1
      · exact hnom i (List.mem_cons_of_mem _ hi) r hr1
      · have hre : r = { id := "rec" ++ toString n, fields := inp.fields } := by
          simpa using hr1
        subst hre
        exact keysMatch_eq_false kf _ _ ((List.pairwise_cons.mp hdist).1 i hi)
    have hih := ih (R ++ [{ id := "rec" ++ toString n, fields := inp.fields }]) (n + 1)
      (fun i hi => hid i (List.mem_cons_of_mem _ hi)) (List.Pairwise.of_cons hdist) hnom2
    simp only [runUpserts, hup, hih]
    simp [freshRows, freshIds, List.append_assoc, TState.mk.injEq]
    try omega

theorem replaceFirst_freshRows (kf : List String) :
    ∀ (inputs : List UpsertInput) (n : Nat),
    List.Pairwise (fun a b => projKeys kf a.fields ≠ projKeys kf b.fields) inputs →
    ∀ inp ∈ inputs,
      replaceFirst (fun r => keysMatch kf r.fields inp.fields) inp.fields
        (freshRows n inputs) = freshRows n inputs := by
  intro inputs
  induction inputs with
  | nil => intro n _ inp h; exact absurd h (List.not_mem_nil _)
  | cons hd rest ih =>
    intro n hdist inp hinp
    rcases List.mem_cons.mp hinp with he | hmem
    · subst he
      simp [freshRows, replaceFirst, keysMatch_self]
    · have hne : keysMatch kf hd.fields inp.fields = false :=
        keysMatch_eq_false kf _ _ ((List.pairwise_cons.mp hdist).1 inp hmem)
      simp [freshRows, replaceFirst, hne,
        ih (n + 1) (List.Pairwise.of_cons hdist) inp hmem]

theorem find?_freshRows_isSome (kf : List String) :
    ∀ (inputs : List UpsertInput) (n : Nat),
    List.Pairwise (fun a b => projKeys kf a.fields ≠ projKeys kf b.fields) inputs →
    ∀ inp ∈ inputs,
      (List.find? (fun r => keysMatch kf r.fields inp.fields)
        (freshRows n inputs)).isSome = true := by
  intro inputs
  induction inputs with
  | nil => intro n _ inp h; exact absurd h (List.not_mem_nil _)
  | cons hd rest ih =>
    intro n hdist inp hinp
    rcases List.mem_cons.mp hinp with he | hmem
    · subst he
      simp [freshRows, List.find?, keysMatch_self]
    · have hne : keysMatch kf hd.fields inp.fields = false :=
        keysMatch_eq_false kf _ _ ((List.pairwise_cons.mp hdist).1 inp hmem)
      simp [freshRows, List.find?, hne,
        ih (n + 1) (List.Pairwise.of_cons hdist) inp hmem]

theorem matchedIds_cons_skip (kf : List String) (row0 : Row) :
    ∀ (inputs : List UpsertInput) (rows : List Row),
    (∀ inp ∈ inputs, keysMatch kf row0.fields inp.fields = false) →
    matchedIds kf (row0 :: rows) inputs = matchedIds kf rows inputs := by
  intro inputs
  induction inputs with
  | nil => intro rows _; rfl
  | cons hd rest ih =>
    intro rows h
    have h0 : keysMatch kf row0.fields hd.fields = false := h hd (List.mem_cons_self _ _)
    simp [matchedIds, List.find?, h0,
      ih rows (fun i hi => h i (List.mem_cons_of_mem _ hi))]

theorem matchedIds_freshRows (kf : List String) :
    ∀ (inputs : List UpsertInput) (n : Nat),
    List.Pairwise (fun a b => projKeys kf a.fields ≠ projKeys kf b.fields) inputs →
    matchedIds kf (freshRows n inputs) inputs = freshIds n inputs := by
  intro inputs
  induction inputs with
  | nil => intro n _; rfl
  | cons hd rest ih =>
    intro n hdist
    have hskip : matchedIds kf ({ id := "rec" ++ toString n, fields := hd.fields } ::
        freshRows (n + 1) rest) rest = matchedIds kf (freshRows (n + 1) rest) rest :=
      matchedIds_cons_skip kf _ rest _
        (fun i hi => keysMatch_eq_false kf _ _ ((List.pairwise_cons.mp hdist).1 i hi))
    simp [freshRows, matchedIds, List.find?, keysMatch_self, freshIds, hskip,
      ih (n + 1) (List.Pairwise.of_cons hdist)]

theorem runUpserts_fix (kf : List String) :
    ∀ (inputs : List UpsertInput) (rows : List Row) (m : Nat),
    (∀ inp ∈ inputs, inp.id = none) →
    (∀ inp ∈ inputs,
      replaceFirst (fun r => keysMatch kf r.fields inp.fields) inp.fields rows = rows) →
    (∀ inp ∈ inputs,
      (List.find? (fun r => keysMatch kf r.fields inp.fields) rows).isSome = true) →
    runUpserts kf { rows := rows, nextId := m } inputs =
      ({ rows := rows, nextId := m }, [], matchedIds kf rows inputs) := by
  intro inputs
  induction inputs with
  | nil => intro rows m _ _ _; simp [runUpserts, matchedIds]
  | cons inp rest ih =>
    intro rows m hid hfix hsome
    obtain ⟨r, hr⟩ := Option.isSome_iff_exists.mp (hsome inp (List.mem_cons_self _ _))
    have hup : upsertOne kf { rows := rows, nextId := m } inp =
        ({ rows := rows, nextId := m }, [], [r.id]) := by
      simp [upsertOne, hid inp (List.mem_cons_self _ _), hr,
        hfix inp (List.mem_cons_self _ _)]
    have hih := ih rows m (fun i hi => hid i (List.mem_cons_of_mem _ hi))
      (fun i hi => hfix i (List.mem_cons_of_mem _ hi))
      (fun i hi => hsome i (List.mem_cons_of_mem _ hi))
    simp only [runUpserts, hup, hih]
    simp [matchedIds, hr]

theorem replaceFirst_byId_any (rid : String) (fs : FieldsV) :
    ∀ l : List Row,
    (replaceFirst (fun r => r.id == rid) fs l).any (fun r => r.id == rid) =
      l.any (fun r => r.id == rid) := by
  intro l
  induction l with
  | nil => rfl
  | cons r rest ih =>
    by_cases h : (r.id == rid) = true
    · simp [replaceFirst, h]
    · simp only [replaceFirst]
      rw [if_neg (by simp [h])]
      simp [h, ih]

theorem replaceFirst_byId_idem (rid : String) (fs : FieldsV) :
    ∀ l : List Row,
    replaceFirst (fun r => r.id == rid) fs (replaceFirst (fun r => r.id == rid) fs l) =
      replaceFirst (fun r => r.id == rid) fs l := by
  intro l
  induction l with
  | nil => rfl
  | cons r rest ih =>
    by_cases h : (r.id == rid) = true
    · simp [replaceFirst, h]
    · simp only [replaceFirst]
      rw [if_neg (by simp [h])]
      simp only [replaceFirst]
      rw [if_neg (by simp [h])]
      rw [ih]

theorem replaceFirst_append_of_none (p : Row → Bool) (fs : FieldsV) :
    ∀ (l1 l2 : List Row), (∀ r ∈ l1, p r = false) →
    replaceFirst p fs (l1 ++ l2) = l1 ++ replaceFirst p fs l2 := by
  intro l1
  induction l1 with
  | nil => intro l2 _; rfl
  | cons r rest ih =>
    intro l2 h
    have h0 : p r = false := h r (List.mem_cons_self _ _)
    simp only [List.cons_append, replaceFirst]
    rw [if_neg (by simp [h0])]
    simp only [List.append_eq]
    rw [ih l2 (fun x hx => h x (List.mem_cons_of_mem _ hx))]

theorem upsertOne_id_idem (kf : List String) (s : TState) (inp : UpsertInput)
    (rid : String) (hid : inp.id = some rid) :
    upsertOne kf (upsertOne kf s inp).1 inp = ((upsertOne kf s inp).1, [], [rid]) := by
  by_cases hany : s.rows.any (fun r => r.id == rid) = true
  · have h1 : upsertOne kf s inp =
        ({ rows := replaceFirst (fun r => r.id == rid) inp.fields s.rows,
           nextId := s.nextId }, [], [rid]) := by
      simp [upsertOne, hid, hany]
    rw [h1]
    have hany2 : (replaceFirst (fun r => r.id == rid) inp.fields s.rows).any
        (fun r => r.id == rid) = true := by
      rw [replaceFirst_byId_any]; exact hany
    simp [upsertOne, hid, hany2, replaceFirst_byId_idem]
  · have hanyf : s.rows.any (fun r => r.id == rid) = false := by
      simpa using hany
    have h1 : upsertOne kf s inp =
        ({ rows := s.rows ++ [{ id := rid, fields := inp.fields }], nextId := s.nextId },
          [rid], []) := by
      simp [upsertOne, hid, hanyf]
    rw [h1]
    have hall : ∀ r ∈ s.rows, (r.id == rid) = false := by
      intro r hr
      have h2 := (List.any_eq_false.mp hanyf) r hr
      simpa using h2
    have hany2 : (s.rows ++ [({ id := rid, fields := inp.fields } : Row)]).any
        (fun r => r.id == rid) = true := by
      simp [List.any_append]
    have hrepl : replaceFirst (fun r => r.id == rid) inp.fields
        (s.rows ++ [({ id := rid, fields := inp.fields } : Row)]) =
        s.rows ++ [({ id := rid, fields := inp.fields } : Row)] := by
      rw [replaceFirst_append_of_none _ _ _ _ hall]
      simp [replaceFirst]
    simp [upsertOne, hid, hany2, hrepl]

/-- Claim C9: batch upsert is idempotent with respect to the table
state (remote matching behavior modelled from the spec, as the upsert
semantics lives in the client library and the remote service, outside
this repository). First part: a batch of id-free records with pairwise
distinct key projections run against an empty table creates one row per
record; running the identical batch again leaves the table state
unchanged, creates nothing, and updates exactly the rows the first call
created. Second part: a record carrying an identity field, upserted
twice, is matched by its id on the second call and updated rather than
duplicated, leaving the state unchanged. -/
theorem C9_batch_upsert_idempotent :
    (∀ (kf : List String) (inputs : List UpsertInput) (n : Nat),
      (∀ inp ∈ inputs, inp.id = none) →
      List.Pairwise (fun a b => projKeys kf a.fields ≠ projKeys kf b.fields) inputs →
      runUpserts kf { rows := [], nextId := n } inputs =
        ({ rows := freshRows n inputs, nextId := n + inputs.length },
          freshIds n inputs, []) ∧
      runUpserts kf { rows := freshRows n inputs, nextId := n + inputs.length } inputs =
        ({ rows := freshRows n inputs, nextId := n + inputs.length }, [],
          freshIds n inputs)) ∧
    (∀ (kf : List String) (s : TState) (inp : UpsertInput) (rid : String),
      inp.id = some rid →
      upsertOne kf (upsertOne kf s inp).1 inp = ((upsertOne kf s inp).1, [], [rid])) := by
  constructor
  · intro kf inputs n hid hdist
    constructor
    · have h := runUpserts_fresh kf inputs [] n hid hdist
        (by intro i hi r hr; exact absurd hr (List.not_mem_nil _))
      simpa using h
    · have hfix := runUpserts_fix kf inputs (freshRows n inputs) (n + inputs.length) hid
        (fun i hi => replaceFirst_freshRows kf inputs n hdist i hi)
        (fun i hi => find?_freshRows_isSome kf inputs n hdist i hi)
      rw [hfix, matchedIds_freshRows kf inputs n hdist]
  · exact upsertOne_id_idem

/-- Claim C9 witness: two distinct-keyed id-free records upserted twice
into an empty table, and one id-bearing record upserted twice. -/
theorem C9_batch_upsert_idempotent_witness :
    (runUpserts ["Name"] ⟨[], 0⟩ [upsA, upsB] =
      (⟨freshRows 0 [upsA, upsB], 0 + [upsA, upsB].length⟩,
        freshIds 0 [upsA, upsB], []) ∧
     runUpserts ["Name"] ⟨freshRows 0 [upsA, upsB], 0 + [upsA, upsB].length⟩
        [upsA, upsB] =
      (⟨freshRows 0 [upsA, upsB], 0 + [upsA, upsB].length⟩, [],
        freshIds 0 [upsA, upsB])) ∧
    upsertOne ["Name"] (upsertOne ["Name"] ⟨[], 5⟩ ⟨some "recX", [("Name", "x")]⟩).1
        ⟨some "recX", [("Name", "x")]⟩ =
      ((upsertOne ["Name"] ⟨[], 5⟩ ⟨some "recX", [("Name", "x")]⟩).1, [], ["recX"]) :=
  ⟨C9_batch_upsert_idempotent.1 ["Name"] [upsA, upsB] 0 (by decide) (by decide),
   C9_batch_upsert_idempotent.2 ["Name"] ⟨[], 5⟩ ⟨some "recX", [("Name", "x")]⟩
     "recX" rfl⟩
